import Mathlib

/-!
Verification of the FFI marshaling and lifetime-management protocol of the
indy-credx Python binding (`wrappers/python/indy_credx/bindings.py`).

The binding is shallowly embedded: the native library is modelled as an
environment supplying the status codes and out-parameter values of the native
entry points, native side effects (object frees, string frees, library loads)
are recorded as explicit event traces, Python exceptions are modelled with an
`Except` monad, and the Python standard-library pieces the binding relies on
(`json.loads`, UTF-8 `encode`/`decode`, `ctypes.c_int64` truncation) are given
executable models restricted to the value shapes that actually cross this
boundary.
-/

/-- A Python value as produced by `json.loads`: JSON null, booleans, integers,
strings, arrays and objects.  Python `None` is identified with `null`, exactly
as `json.loads` does.  Numbers are modelled as integers only, which covers the
error payloads `{code, message, extra?}` this binding decodes. -/
inductive PyJson where
  | null : PyJson
  | bool (b : Bool) : PyJson
  | int (n : Int) : PyJson
  | str (s : String) : PyJson
  | arr (xs : List PyJson) : PyJson
  | obj (fields : List (String × PyJson)) : PyJson

/-- Modelled from the spec: `CredxErrorCode` lives in `indy_credx/error.py`,
which is not part of the sources under verification.  The spec describes it as
a closed enumeration mirrored from the native library's codes plus one
managed-only variant `WRAPPER`; we model the native codes as the integers 0–8
and `WRAPPER` as 99. -/
inductive CredxErrorCode where
  | SUCCESS | INPUT | IOERR | INVALIDSTATE | UNEXPECTED
  | CREDENTIALREVOKED | INVALIDUSERREVOCID | PROOFREJECTED
  | REVOCATIONREGISTRYFULL | WRAPPER
  deriving Repr, DecidableEq

/-- The integer value of each enumeration member. -/
def CredxErrorCode.toInt : CredxErrorCode → Int
  | .SUCCESS => 0
  | .INPUT => 1
  | .IOERR => 2
  | .INVALIDSTATE => 3
  | .UNEXPECTED => 4
  | .CREDENTIALREVOKED => 5
  | .INVALIDUSERREVOCID => 6
  | .PROOFREJECTED => 7
  | .REVOCATIONREGISTRYFULL => 8
  | .WRAPPER => 99

/-- Membership conversion, `IntEnum.__call__` restricted to the members:
`some` for a member's value, `none` otherwise. -/
def CredxErrorCode.ofInt (n : Int) : Option CredxErrorCode :=
  if n = 0 then some .SUCCESS
  else if n = 1 then some .INPUT
  else if n = 2 then some .IOERR
  else if n = 3 then some .INVALIDSTATE
  else if n = 4 then some .UNEXPECTED
  else if n = 5 then some .CREDENTIALREVOKED
  else if n = 6 then some .INVALIDUSERREVOCID
  else if n = 7 then some .PROOFREJECTED
  else if n = 8 then some .REVOCATIONREGISTRYFULL
  else if n = 99 then some .WRAPPER
  else none

/-- The structured error type `CredxError(code, message, extra=None)`.
The `message` argument is stored as passed (the binding passes the decoded
JSON field, normally a string). -/
structure CredxError where
  code : CredxErrorCode
  message : PyJson
  extra : Option PyJson

/-- The Python exceptions that can arise on the paths of `bindings.py` we
model: `TypeError` (e.g. `json.loads(None)`, `raise None`, `"k" in 5`),
`ValueError` (invalid enum member), `KeyError` (missing dict key),
`AttributeError` (`.get` on a non-dict), `json.JSONDecodeError`,
`UnicodeDecodeError` (invalid UTF-8 in `bytes.decode`), and a raised
`CredxError` carrying the structured error. -/
inductive PyExc where
  | typeError : PyExc
  | valueError : PyExc
  | keyError : PyExc
  | attributeError : PyExc
  | jsonDecodeError : PyExc
  | unicodeDecodeError : PyExc
  | credxError (e : CredxError) : PyExc

/-- `CredxErrorCode(x)` applied to a decoded JSON value: a Python `int`
(or `bool`, an `int` subclass) that is a member converts; every other value
raises `ValueError`, which `get_current_error` does not catch. -/
def CredxErrorCode.ofPy : PyJson → Except PyExc CredxErrorCode
  | .int n =>
    match CredxErrorCode.ofInt n with
    | some c => .ok c
    | none => .error .valueError
  | .bool b =>
    match CredxErrorCode.ofInt (if b then 1 else 0) with
    | some c => .ok c
    | none => .error .valueError
  | _ => .error .valueError

/-- Python dict lookup on the field list of a JSON object.  `json.loads`
keeps the last occurrence of a duplicated key, so the lookup scans the
reversed field list. -/
def dictLookup (fields : List (String × PyJson)) (k : String) : Option PyJson :=
  match fields.reverse.find? (fun p => p.1 == k) with
  | some p => some p.2
  | none => none

/-- Python truthiness of a decoded JSON value (`if msg ...`). -/
def PyJson.truthy : PyJson → Bool
  | .null => false
  | .bool b => b
  | .int n => n != 0
  | .str s => !s.isEmpty
  | .arr xs => !xs.isEmpty
  | .obj fields => !fields.isEmpty

/-- Substring test on character lists, modelling Python `needle in hay`
for strings. -/
def listSub (needle : List Char) : List Char → Bool
  | [] => needle.isEmpty
  | c :: t => List.isPrefixOf needle (c :: t) || listSub needle t

/-- Python `k in v` for a decoded JSON value: key membership for dicts,
element membership for lists, substring for strings, `TypeError` otherwise. -/
def pyContains (k : String) : PyJson → Except PyExc Bool
  | .obj fields => .ok (dictLookup fields k).isSome
  | .arr xs => .ok (xs.any (fun x => match x with | PyJson.str s => s == k | _ => false))
  | .str s => .ok (listSub k.data s.data)
  | _ => .error .typeError

/-- Python `v[k]` for a decoded JSON value indexed by a string: dict item
lookup (raising `KeyError` when absent), `TypeError` for every other value
(string indices must be integers, etc.). -/
def PyJson.getitem : PyJson → String → Except PyExc PyJson
  | .obj fields, k =>
    match dictLookup fields k with
    | some v => .ok v
    | none => .error .keyError
  | _, _ => .error .typeError

/-- Python `v.get(k)` : `dict.get` returning `None` for a missing key;
`AttributeError` on a non-dict. -/
def PyJson.dictGet : PyJson → String → Except PyExc (Option PyJson)
  | .obj fields, k => .ok (dictLookup fields k)
  | _, _ => .error .attributeError

/-- JSON whitespace. -/
def jsonWs (c : Char) : Bool :=
  c == ' ' || c == '\t' || c == '\n' || c == '\r'

/-- Drop leading JSON whitespace. -/
def skipWs : List Char → List Char
  | [] => []
  | c :: cs => if jsonWs c then skipWs cs else c :: cs

/-- Numeric value of a digit run. -/
def natOfDigits (ds : List Char) : Nat :=
  ds.foldl (fun a c => a * 10 + (c.toNat - 48)) 0

/-- Parse a nonempty digit run. -/
def parseDigits (cs : List Char) : Option (Nat × List Char) :=
  let ds := cs.takeWhile Char.isDigit
  if ds.isEmpty then none else some (natOfDigits ds, cs.drop ds.length)

/-- Parse the remainder of a JSON string literal (the opening quote already
consumed).  Escapes are not modelled: the error payloads decoded here do not
use them, and a backslash is rejected rather than misread. -/
def parseStrChars : List Char → Option (List Char × List Char)
  | [] => none
  | c :: cs =>
    if c == '"' then some ([], cs)
    else if c == '\\' then none
    else (parseStrChars cs).map (fun p => (c :: p.1, p.2))

/-- Match a literal keyword at the head of the input. -/
def parseKeyword (kw : List Char) (cs : List Char) : Option (List Char) :=
  if List.isPrefixOf kw cs then some (cs.drop kw.length) else none

mutual

/-- Fuel-indexed recursive-descent JSON value reader modelling `json.loads`
on the integer/strings-without-escapes subset used by the error channel. -/
def parseValue (fuel : Nat) (cs : List Char) : Option (PyJson × List Char) :=
  match fuel with
  | 0 => none
  | fuel + 1 =>
    match skipWs cs with
    | [] => none
    | c :: rest =>
      if c == '"' then
        (parseStrChars rest).map (fun p => (PyJson.str (String.mk p.1), p.2))
      else if c == '-' then
        (parseDigits rest).map (fun p => (PyJson.int (-(p.1 : Int)), p.2))
      else if c.isDigit then
        (parseDigits (c :: rest)).map (fun p => (PyJson.int (p.1 : Int), p.2))
      else if c == 'n' then
        (parseKeyword ['n', 'u', 'l', 'l'] (c :: rest)).map (fun r => (PyJson.null, r))
      else if c == 't' then
        (parseKeyword ['t', 'r', 'u', 'e'] (c :: rest)).map (fun r => (PyJson.bool true, r))
      else if c == 'f' then
        (parseKeyword ['f', 'a', 'l', 's', 'e'] (c :: rest)).map
          (fun r => (PyJson.bool false, r))
      else if c == '[' then
        match skipWs rest with
        | ']' :: r => some (PyJson.arr [], r)
        | other => (parseElems fuel other).map (fun p => (PyJson.arr p.1, p.2))
      else if c == '\x7b' then
        match skipWs rest with
        | '\x7d' :: r => some (PyJson.obj [], r)
        | other => (parseMembers fuel other).map (fun p => (PyJson.obj p.1, p.2))
      else none

/-- Comma-separated JSON array elements up to the closing bracket. -/
def parseElems (fuel : Nat) (cs : List Char) : Option (List PyJson × List Char) :=
  match fuel with
  | 0 => none
  | fuel + 1 =>
    match parseValue fuel cs with
    | none => none
    | some (v, rest) =>
      match skipWs rest with
      | ',' :: r => (parseElems fuel r).map (fun p => (v :: p.1, p.2))
      | ']' :: r => some ([v], r)
      | _ => none

/-- Comma-separated JSON object members up to the closing brace. -/
def parseMembers (fuel : Nat) (cs : List Char) :
    Option (List (String × PyJson) × List Char) :=
  match fuel with
  | 0 => none
  | fuel + 1 =>
    match skipWs cs with
    | '"' :: rest =>
      match parseStrChars rest with
      | none => none
      | some (key, afterKey) =>
        match skipWs afterKey with
        | ':' :: afterColon =>
          match parseValue fuel afterColon with
          | none => none
          | some (v, rest2) =>
            match skipWs rest2 with
            | ',' :: r => (parseMembers fuel r).map
                (fun p => ((String.mk key, v) :: p.1, p.2))
            | '\x7d' :: r => some ([(String.mk key, v)], r)
            | _ => none
        | _ => none
    | _ => none

end

/-- Model of `json.loads` applied to `err_json.value`: `loads(None)` raises
`TypeError` (only `json.JSONDecodeError` is caught at the call site), and a
byte string is decoded as a JSON document with nothing but whitespace allowed
after the value.  The native-written bytes are modelled as text. -/
def json_loads : Option String → Except PyExc PyJson
  | none => .error .typeError
  | some s =>
    match parseValue (2 * s.data.length + 4) s.data with
    | some (v, rest) => if (skipWs rest).isEmpty then .ok v else .error .jsonDecodeError
    | none => .error .jsonDecodeError

/-- The state of the native error channel as seen by one
`credx_get_current_error(byref(err_json))` call: the status code the native
entry point returns and the value it leaves in `err_json` (`none` models a
null pointer, i.e. the out-parameter left untouched). -/
structure NativeEnv where
  errStatus : Int
  errValue : Option String

/-- The generic wrapper error `CredxError(CredxErrorCode.WRAPPER, "Unknown
error")`. -/
def unknown_error : CredxError :=
  { code := CredxErrorCode.WRAPPER, message := PyJson.str "Unknown error", extra := none }

/-- The guard `msg and "message" in msg and "code" in msg` with Python
short-circuiting: a falsy `msg` skips both membership tests, and each
membership test may itself raise. -/
def checkFields (m : PyJson) : Except PyExc Bool :=
  if m.truthy then
    match pyContains "message" m with
    | .error e => .error e
    | .ok false => .ok false
    | .ok true => pyContains "code" m
  else .ok false

/-- The construction `CredxError(CredxErrorCode(msg["code"]), msg["message"],
msg.get("extra"))`, with Python's left-to-right argument evaluation:
`msg["code"]`, the enum conversion, `msg["message"]`, then `msg.get`. -/
def buildError (m : PyJson) : Except PyExc CredxError :=
  match m.getitem "code" with
  | .error e => .error e
  | .ok codeJ =>
    match CredxErrorCode.ofPy codeJ with
    | .error e => .error e
    | .ok code =>
      match m.getitem "message" with
      | .error e => .error e
      | .ok msgJ =>
        match m.dictGet "extra" with
        | .error e => .error e
        | .ok extra => .ok { code := code, message := msgJ, extra := extra }

/-- The body shared by both `json.loads` outcomes of `get_current_error`:
`msg` is the decoded value (`PyJson.null` both for payload `null` and for the
caught `JSONDecodeError` that sets `msg = None`), and the remaining lines
run up to the function's final `return`. -/
def handleErrorJson (m : PyJson) (expect : Bool) : Except PyExc (Option CredxError) :=
  match checkFields m with
  | .error e => .error e
  | .ok true =>
    match buildError m with
    | .error e => .error e
    | .ok err => .ok (some err)
  | .ok false =>
    if expect = false then .ok none
    else .ok (some unknown_error)

/-- `get_current_error(expect)` from `bindings.py`: fetch the last-error JSON
from the native library; on a zero status decode it (catching only
`JSONDecodeError`), return the structured error when the payload is a truthy
value containing `message` and `code`, return `None` when it is not and
`expect` is false; on every remaining path — including a non-zero native
status — return the generic `WRAPPER`-coded "Unknown error". -/
def get_current_error (env : NativeEnv) (expect : Bool) : Except PyExc (Option CredxError) :=
  if env.errStatus = 0 then
    match json_loads env.errValue with
    | .ok m => handleErrorJson m expect
    | .error PyExc.jsonDecodeError => handleErrorJson PyJson.null expect
    | .error e => .error e
  else .ok (some unknown_error)

/-- `do_call(fn_name, *args)`: the looked-up native function's integer return
value is supplied by the environment as `status`; a truthy (non-zero) status
triggers `raise get_current_error(True)`.  Raising the value `None` would be
a `TypeError` in Python; raising a `CredxError` value is modelled by
`PyExc.credxError`. -/
def do_call (env : NativeEnv) (status : Int) : Except PyExc Unit :=
  if status ≠ 0 then
    match get_current_error env true with
    | .ok (some e) => .error (PyExc.credxError e)
    | .ok none => .error PyExc.typeError
    | .error e => .error e
  else .ok ()

/-- Native entry points invoked by the lifetime-management paths, recorded as
trace events: `credx_object_free(handle)` with the handle's `c_int64` value,
`credx_string_free(ptr)` with the wrapped pointer (`none` = null). -/
inductive NativeCall where
  | objectFree (handle : Int) : NativeCall
  | stringFree (value : Option String) : NativeCall
  deriving Repr, DecidableEq

/-- `object_free(handle)`: one unconditional `credx_object_free` invocation. -/
def object_free (handle : Int) : List NativeCall :=
  [NativeCall.objectFree handle]

/-- `ObjectHandle.__del__`: fires `object_free(self)` at the end of the
instance's lifetime. -/
def ObjectHandle_del (value : Int) : List NativeCall :=
  object_free value

/-- The trace of native calls produced when a collection of `ObjectHandle`
instances (each listed by its `c_int64` value) reaches end of lifetime: the
managed runtime runs each instance's `__del__` exactly once. -/
def finalizeHandles (instances : List Int) : List NativeCall :=
  match instances with
  | [] => []
  | v :: rest => ObjectHandle_del v ++ finalizeHandles rest

/-- `lib_string.__del__`: one unconditional `credx_string_free(self)`
invocation, whatever the wrapped value (`none` models a null reference). -/
def lib_string_del (value : Option String) : List NativeCall :=
  [NativeCall.stringFree value]

/-- The trace of native calls produced when a collection of `lib_string`
wrappers reaches end of lifetime. -/
def finalizeStrings (instances : List (Option String)) : List NativeCall :=
  match instances with
  | [] => []
  | v :: rest => lib_string_del v ++ finalizeStrings rest

/-- The environment of one `get_library()` call: the outcome of
`_load_library("indy_credx")` (a loaded `CDLL` identity, or the raised
`CredxError`), and the status and error-channel state of the
`do_call("credx_set_default_logger")` initialization step. -/
structure LoadEnv where
  loadResult : Except CredxError Nat
  loggerStatus : Int
  loggerEnv : NativeEnv

/-- Steps of the load-and-initialize sequence, recorded as trace events. -/
inductive InitEvent where
  | loadLibrary : InitEvent
  | setDefaultLogger : InitEvent
  deriving Repr, DecidableEq

/-- `get_library()`: with the global `LIB` as explicit state (`none` before
the first load), return the result, the new state, and the initialization
events performed.  When `LIB` is already set the function returns it at once;
otherwise `_load_library` runs, its result is assigned to `LIB`, and the
default logger is registered through `do_call` (whose failure propagates
after `LIB` was already assigned). -/
def get_library (env : LoadEnv) (lib : Option Nat) :
    Except PyExc Nat × Option Nat × List InitEvent :=
  match lib with
  | some l => (.ok l, some l, [])
  | none =>
    match env.loadResult with
    | .error e => (.error (PyExc.credxError e), none, [InitEvent.loadLibrary])
    | .ok l =>
      match do_call env.loggerEnv env.loggerStatus with
      | .ok _ => (.ok l, some l, [InitEvent.loadLibrary, InitEvent.setDefaultLogger])
      | .error e => (.error e, some l, [InitEvent.loadLibrary, InitEvent.setDefaultLogger])

/-- UTF-8 encoding of one Unicode scalar value, as performed by Python's
`str.encode("utf-8")` (arithmetic form of the usual bit operations). -/
def utf8EncodeChar (c : Char) : List Nat :=
  let v := c.toNat
  if v < 128 then [v]
  else if v < 2048 then [192 + v / 64, 128 + v % 64]
  else if v < 65536 then [224 + v / 4096, 128 + v / 64 % 64, 128 + v % 64]
  else [240 + v / 262144, 128 + v / 4096 % 64, 128 + v / 64 % 64, 128 + v % 64]

/-- UTF-8 encoding of a character sequence as a byte list. -/
def utf8Encode : List Char → List Nat
  | [] => []
  | c :: cs => utf8EncodeChar c ++ utf8Encode cs

/-- Decode one scalar value from the head of a byte list, rejecting
truncated sequences, bad continuation bytes, overlong forms, surrogates and
out-of-range values, as Python's `bytes.decode("utf-8")` does. -/
def utf8DecodeChar (bs : List Nat) : Option (Nat × List Nat) :=
  match bs with
  | [] => none
  | b0 :: r0 =>
    if b0 < 128 then some (b0, r0)
    else if b0 < 192 then none
    else if b0 < 224 then
      match r0 with
      | b1 :: r1 =>
        if 128 ≤ b1 ∧ b1 < 192 then
          let v := (b0 - 192) * 64 + (b1 - 128)
          if 128 ≤ v then some (v, r1) else none
        else none
      | [] => none
    else if b0 < 240 then
      match r0 with
      | b1 :: b2 :: r2 =>
        if (128 ≤ b1 ∧ b1 < 192) ∧ (128 ≤ b2 ∧ b2 < 192) then
          let v := (b0 - 224) * 4096 + (b1 - 128) * 64 + (b2 - 128)
          if 2048 ≤ v ∧ ¬(55296 ≤ v ∧ v < 57344) then some (v, r2) else none
        else none
      | _ => none
    else if b0 < 245 then
      match r0 with
      | b1 :: b2 :: b3 :: r3 =>
        if (128 ≤ b1 ∧ b1 < 192) ∧ (128 ≤ b2 ∧ b2 < 192) ∧ (128 ≤ b3 ∧ b3 < 192) then
          let v := (b0 - 240) * 262144 + (b1 - 128) * 4096 + (b2 - 128) * 64 + (b3 - 128)
          if 65536 ≤ v ∧ v < 1114112 then some (v, r3) else none
        else none
      | _ => none
    else none

/-- Fuel-indexed UTF-8 decoding loop; any fuel at least the byte count
suffices since every step consumes at least one byte. -/
def utf8DecodeAux (fuel : Nat) (bs : List Nat) : Option (List Char) :=
  match bs with
  | [] => some []
  | _ :: _ =>
    match fuel with
    | 0 => none
    | fuel + 1 =>
      match utf8DecodeChar bs with
      | some (v, rest) => (utf8DecodeAux fuel rest).map (fun cs => Char.ofNat v :: cs)
      | none => none

/-- UTF-8 decoding of a byte list into characters (`none` = invalid UTF-8,
where Python raises `UnicodeDecodeError`). -/
def utf8Decode (bs : List Nat) : Option (List Char) :=
  utf8DecodeAux bs.length bs

/-- The argument accepted by `encode_str`: `None`, a `str`, or an
already-encoded `bytes`/`memoryview` value (modelled by its byte list). -/
inductive PyStrArg where
  | pynone : PyStrArg
  | str (s : String) : PyStrArg
  | bytes (b : List Nat) : PyStrArg

/-- `encode_str(arg)` from `bindings.py`: `None` maps to a null `c_char_p`,
a `str` is UTF-8 encoded, and `bytes`-like input is passed through.  The
resulting `c_char_p` is modelled as the byte list it points to. -/
def encode_str : PyStrArg → Option (List Nat)
  | .pynone => none
  | .str s => some (utf8Encode s.data)
  | .bytes b => some b

/-- `decode_str(value)` from `bindings.py`: `value.decode("utf-8")`, raising
`UnicodeDecodeError` on invalid UTF-8. -/
def decode_str (value : List Nat) : Except PyExc String :=
  match utf8Decode value with
  | some cs => .ok (String.mk cs)
  | none => .error PyExc.unicodeDecodeError

/-- `ctypes.c_int64(n)`: two's-complement truncation of a Python int to a
signed 64-bit value. -/
def c_int64 (n : Int) : Int :=
  (n + 2 ^ 63) % 2 ^ 64 - 2 ^ 63

/-- Python `seq_no or -1` for `seq_no: int = None`: `None` and the falsy
integer `0` both yield `-1`; any other integer yields itself. -/
def pyOrNeg1 : Option Int → Int
  | none => -1
  | some n => if n = 0 then -1 else n

/-- Model of `json.dumps` on a list of strings (`json.dumps(attr_names)`),
restricted to strings that need no escaping, with the default `", "`
separator. -/
def json_dumps_strList (xs : List String) : String :=
  "[" ++ String.intercalate ", " (xs.map (fun s => "\"" ++ s ++ "\"")) ++ "]"

/-- The marshaled arguments `create_schema` passes to the native
`credx_create_schema` call: four encoded `c_char_p` values and the `c_int64`
sequence number. -/
structure CreateSchemaCall where
  origin_did : Option (List Nat)
  name : Option (List Nat)
  version : Option (List Nat)
  attr_names : Option (List Nat)
  seq_no : Int

/-- `create_schema(origin_did, name, version, attr_names, seq_no=None)`:
the argument marshaling performed before `do_call("credx_create_schema",
...)`, as a record of the values handed to the native entry point. -/
def create_schema (origin_did name version : String) (attr_names : List String)
    (seq_no : Option Int) : CreateSchemaCall :=
  { origin_did := encode_str (PyStrArg.str origin_did)
    name := encode_str (PyStrArg.str name)
    version := encode_str (PyStrArg.str version)
    attr_names := encode_str (PyStrArg.str (json_dumps_strList attr_names))
    seq_no := c_int64 (pyOrNeg1 seq_no) }

example : json_loads (some "\x7b\"code\": 1, \"message\": \"oops\"\x7d") =
    .ok (PyJson.obj [("code", PyJson.int 1), ("message", PyJson.str "oops")]) := rfl

example : json_loads (some "") = .error .jsonDecodeError := rfl

example : json_loads none = .error .typeError := rfl

example : json_loads (some "null") = .ok PyJson.null := rfl

/-! ### Helper lemmas -/

theorem char_toNat_valid (c : Char) :
    c.toNat < 55296 ∨ (57343 < c.toNat ∧ c.toNat < 1114112) := by
  rcases c.valid with h | ⟨h1, h2⟩
  · left; exact h
  · right; exact ⟨h1, h2⟩

set_option maxHeartbeats 1000000 in
theorem utf8DecodeChar_encodeChar (c : Char) (rest : List Nat) :
    utf8DecodeChar (utf8EncodeChar c ++ rest) = some (c.toNat, rest) := by
  have hv := char_toNat_valid c
  rw [show utf8EncodeChar c =
      (if c.toNat < 128 then [c.toNat]
       else if c.toNat < 2048 then [192 + c.toNat / 64, 128 + c.toNat % 64]
       else if c.toNat < 65536 then
         [224 + c.toNat / 4096, 128 + c.toNat / 64 % 64, 128 + c.toNat % 64]
       else [240 + c.toNat / 262144, 128 + c.toNat / 4096 % 64,
         128 + c.toNat / 64 % 64, 128 + c.toNat % 64]) from rfl]
  generalize c.toNat = v at hv ⊢
  by_cases h1 : v < 128
  · rw [if_pos h1]
    simp only [List.cons_append, List.nil_append, utf8DecodeChar]
    rw [if_pos h1]
  · by_cases h2 : v < 2048
    · rw [if_neg h1, if_pos h2]
      simp only [List.cons_append, List.nil_append, utf8DecodeChar]
      split_ifs with a1 a2 a3 a4 <;> try omega
      simp only [Option.some.injEq, Prod.mk.injEq]
      exact ⟨by omega, trivial⟩
    · by_cases h3 : v < 65536
      · rw [if_neg h1, if_neg h2, if_pos h3]
        simp only [List.cons_append, List.nil_append, utf8DecodeChar]
        split_ifs with a1 a2 a3 a4 a5 a6 <;> try omega
        simp only [Option.some.injEq, Prod.mk.injEq]
        exact ⟨by omega, trivial⟩
      · rw [if_neg h1, if_neg h2, if_neg h3]
        simp only [List.cons_append, List.nil_append, utf8DecodeChar]
        split_ifs with a1 a2 a3 a4 a5 a6 a7 <;> try omega
        simp only [Option.some.injEq, Prod.mk.injEq]
        exact ⟨by omega, trivial⟩

theorem utf8EncodeChar_length_pos (c : Char) : 1 ≤ (utf8EncodeChar c).length := by
  rw [utf8EncodeChar]
  split_ifs <;> simp

theorem utf8DecodeAux_encode : ∀ (cs : List Char) (fuel : Nat),
    (utf8Encode cs).length ≤ fuel → utf8DecodeAux fuel (utf8Encode cs) = some cs
  | [], fuel, _ => by cases fuel <;> rfl
  | c :: cs, fuel, h => by
    have hlen : 1 ≤ (utf8EncodeChar c).length := utf8EncodeChar_length_pos c
    have henc : utf8Encode (c :: cs) = utf8EncodeChar c ++ utf8Encode cs := rfl
    rw [henc] at h ⊢
    rw [List.length_append] at h
    cases fuel with
    | zero => omega
    | succ f =>
      obtain ⟨b, bs, hb⟩ : ∃ b bs, utf8EncodeChar c = b :: bs := by
        cases hc : utf8EncodeChar c with
        | nil => rw [hc] at hlen; simp at hlen
        | cons b bs => exact ⟨b, bs, rfl⟩
      rw [hb, List.cons_append]
      simp only [utf8DecodeAux]
      rw [← List.cons_append, ← hb, utf8DecodeChar_encodeChar]
      dsimp only
      rw [utf8DecodeAux_encode cs f (by omega)]
      simp

theorem utf8Decode_encode (cs : List Char) : utf8Decode (utf8Encode cs) = some cs :=
  utf8DecodeAux_encode cs (utf8Encode cs).length le_rfl

/-! ### Claims -/

/-- C1 (corrected): in the code each `ObjectHandle` instance's `__del__`
invokes `credx_object_free` unconditionally, so the number of native free
invocations for a value `H` equals the number of `ObjectHandle` instances
carrying `H` — exactly once per instance, and hence at most once for `H`
only when at most one instance carries `H`. -/
theorem object_free_once_per_instance (instances : List Int) (H : Int) :
    (finalizeHandles instances).count (NativeCall.objectFree H) = instances.count H := by
  induction instances with
  | nil => rfl
  | cons v rest ih =>
    simp only [finalizeHandles, ObjectHandle_del, object_free, List.cons_append,
      List.nil_append, List.count_cons, ih]
    by_cases h : v = H
    · simp [h]
    · simp [h, NativeCall.objectFree.injEq]

/-- C1 counterexample: two `ObjectHandle` instances carrying the same value 7
fire `credx_object_free(7)` twice across the object's lifetime, violating
"at most once per underlying value". -/
theorem object_free_twice_for_duplicate_value :
    ¬ (finalizeHandles [7, 7]).count (NativeCall.objectFree 7) ≤ 1 := by
  decide

/-- C4 (corrected): `lib_string.__del__` invokes `credx_string_free` exactly
once per wrapper at end of lifetime, but unconditionally — a wrapper holding
a null reference also invokes the free entry point (passing the null). -/
theorem string_free_once_per_wrapper (instances : List (Option String)) (v : Option String) :
    (finalizeStrings instances).count (NativeCall.stringFree v) = instances.count v := by
  induction instances with
  | nil => rfl
  | cons w rest ih =>
    simp only [finalizeStrings, lib_string_del, List.cons_append, List.nil_append,
      List.count_cons, ih]
    by_cases h : w = v
    · simp [h]
    · simp [h, NativeCall.stringFree.injEq]

/-- C4 counterexample: a `lib_string` wrapper whose reference is null still
invokes the native string-free entry point (once) when its lifetime ends,
contradicting "a wrapper holding a null reference never calls the free entry
point". -/
theorem string_free_fires_for_null_wrapper :
    (finalizeStrings [none]).count (NativeCall.stringFree none) = 1 := by
  decide

/-- C8 (confirmed): encoding a text value with `encode_str` and decoding the
resulting UTF-8 byte sequence with `decode_str` yields the original text. -/
theorem encode_decode_roundtrip (s : String) :
    (encode_str (PyStrArg.str s)).map decode_str = some (Except.ok s) := by
  simp only [encode_str, Option.map, decode_str, utf8Decode_encode]

/-- C2 (corrected): when the native `credx_get_current_error` call itself
returns a non-zero status, `get_current_error` does not raise, but it does
not return `None` either: the final `return` lies outside the zero-status
block, so the function returns the generic `WRAPPER`-coded "Unknown error"
for every value of `expect`. -/
theorem get_current_error_failed_fetch_unknown (env : NativeEnv) (expect : Bool)
    (h : env.errStatus ≠ 0) :
    get_current_error env expect = .ok (some unknown_error) := by
  simp [get_current_error, h]

/-- Witness for C2 at the concrete environment where the native fetch
returns status 1. -/
theorem get_current_error_failed_fetch_unknown_witness :
    (1 : Int) ≠ 0 ∧ get_current_error ⟨1, none⟩ false = .ok (some unknown_error) :=
  ⟨by decide, get_current_error_failed_fetch_unknown ⟨1, none⟩ false (by decide)⟩

/-- C2 counterexample: with the native fetch failing (status 1) and
`expect = false`, the result is not `None`, contradicting the claim. -/
theorem get_current_error_failed_fetch_not_none :
    get_current_error ⟨1, none⟩ false ≠ .ok none := by
  simp [get_current_error]

/-- C3 (corrected): on a successful native fetch, an **empty** output string
is handled (the `JSONDecodeError` is caught and `None` is returned without
raising), but an **absent (null)** output reaches `json.loads(None)`, which
raises a `TypeError` that the function does not catch. -/
theorem get_current_error_empty_safe_null_raises :
    get_current_error ⟨0, some ""⟩ false = .ok none ∧
    get_current_error ⟨0, none⟩ false = .error PyExc.typeError :=
  ⟨rfl, rfl⟩

/-- C3 counterexample: the successful fetch whose output is absent (null)
makes `get_current_error(expect=false)` raise `TypeError` instead of
returning normally with `None`. -/
theorem get_current_error_null_value_raises :
    get_current_error ⟨0, none⟩ false = .error PyExc.typeError := rfl

/-- C5 (confirmed): when the native fetch succeeds and the decoded payload is
a JSON object lacking `"message"` or `"code"`, the result is `None` for
`expect = false` and the `WRAPPER`-coded "Unknown error" for `expect = true`. -/
theorem get_current_error_missing_fields (env : NativeEnv)
    (fields : List (String × PyJson))
    (h0 : env.errStatus = 0)
    (hl : json_loads env.errValue = .ok (PyJson.obj fields))
    (hm : dictLookup fields "message" = none ∨ dictLookup fields "code" = none) :
    get_current_error env false = .ok none ∧
    get_current_error env true = .ok (some unknown_error) := by
  have hcf : checkFields (PyJson.obj fields) = .ok false := by
    by_cases he : fields.isEmpty
    · simp [checkFields, PyJson.truthy, he]
    · rcases hm with hm | hm
      · simp [checkFields, PyJson.truthy, he, pyContains, hm]
      · cases hmm : dictLookup fields "message" with
        | none => simp [checkFields, PyJson.truthy, he, pyContains, hmm]
        | some x => simp [checkFields, PyJson.truthy, he, pyContains, hmm, hm]
  constructor <;> simp [get_current_error, h0, hl, handleErrorJson, hcf]

/-- Witness for C5 at the concrete payload `{"message": "m"}` (no `"code"`). -/
theorem get_current_error_missing_fields_witness :
    json_loads (some "\x7b\"message\": \"m\"\x7d") =
      .ok (PyJson.obj [("message", PyJson.str "m")]) ∧
    (get_current_error ⟨0, some "\x7b\"message\": \"m\"\x7d"⟩ false = .ok none ∧
     get_current_error ⟨0, some "\x7b\"message\": \"m\"\x7d"⟩ true = .ok (some unknown_error)) :=
  ⟨rfl, get_current_error_missing_fields ⟨0, some "\x7b\"message\": \"m\"\x7d"⟩
    [("message", PyJson.str "m")] rfl rfl (Or.inr rfl)⟩

/-- C6 (confirmed): `do_call` returns without raising when the native entry
point reports the zero/success sentinel, and on any non-zero value performs
the Error Channel lookup with `expect = true` and raises the structured
error that lookup produced. -/
theorem do_call_status_dispatch (env : NativeEnv) (status : Int) :
    (status = 0 → do_call env status = .ok ()) ∧
    (status ≠ 0 → ∀ e : CredxError, get_current_error env true = .ok (some e) →
      do_call env status = .error (PyExc.credxError e)) := by
  constructor
  · intro h
    simp [do_call, h]
  · intro h e he
    simp [do_call, h, he]

/-- Witness for C6: a zero status returns `()`; status 1 with the pending
error `{"message": "m", "code": 1}` raises the decoded `CredxError`. -/
theorem do_call_status_dispatch_witness :
    do_call ⟨1, none⟩ 0 = .ok () ∧
    do_call ⟨0, some "\x7b\"message\": \"m\", \"code\": 1\x7d"⟩ 1 =
      .error (PyExc.credxError ⟨CredxErrorCode.INPUT, PyJson.str "m", none⟩) :=
  ⟨(do_call_status_dispatch ⟨1, none⟩ 0).1 rfl,
   (do_call_status_dispatch ⟨0, some "\x7b\"message\": \"m\", \"code\": 1\x7d"⟩ 1).2
     (by decide) ⟨CredxErrorCode.INPUT, PyJson.str "m", none⟩ rfl⟩

/-- C7 (confirmed): a successful first `get_library()` call performs the
load step exactly once, and every later call (whatever its environment)
returns the same loaded library object with the state unchanged and no load
or initialization event. -/
theorem get_library_idempotent (env : LoadEnv) (l : Nat) (st : Option Nat)
    (evs : List InitEvent)
    (h : get_library env none = (Except.ok l, st, evs)) :
    evs.count InitEvent.loadLibrary = 1 ∧
    ∀ env' : LoadEnv, get_library env' st = (Except.ok l, st, []) := by
  cases hl : env.loadResult with
  | error e =>
    have hg : get_library env none =
        (.error (PyExc.credxError e), none, [InitEvent.loadLibrary]) := by
      unfold get_library
      rw [hl]
    rw [hg] at h
    simp at h
  | ok l0 =>
    cases hd : do_call env.loggerEnv env.loggerStatus with
    | ok u =>
      have hg : get_library env none =
          (.ok l0, some l0, [InitEvent.loadLibrary, InitEvent.setDefaultLogger]) := by
        unfold get_library
        rw [hl, hd]
      rw [hg] at h
      simp only [Prod.mk.injEq, Except.ok.injEq] at h
      obtain ⟨rfl, rfl, rfl⟩ := h
      exact ⟨by decide, fun env' => rfl⟩
    | error e =>
      have hg : get_library env none =
          (.error e, some l0, [InitEvent.loadLibrary, InitEvent.setDefaultLogger]) := by
        unfold get_library
        rw [hl, hd]
      rw [hg] at h
      simp at h

/-- Witness for C7: a first call that loads library 7 with a clean logger
registration, then a second call under a hostile environment (load would
fail) that still returns 7 with no events. -/
theorem get_library_idempotent_witness :
    get_library ⟨Except.ok 7, 0, ⟨0, none⟩⟩ none =
      (Except.ok 7, some 7, [InitEvent.loadLibrary, InitEvent.setDefaultLogger]) ∧
    get_library ⟨Except.error unknown_error, 1, ⟨1, none⟩⟩ (some 7) =
      (Except.ok 7, some 7, []) :=
  ⟨rfl, (get_library_idempotent ⟨Except.ok 7, 0, ⟨0, none⟩⟩ 7 (some 7)
    [InitEvent.loadLibrary, InitEvent.setDefaultLogger] rfl).2 _⟩

/-- C9 (confirmed, implicit): a well-formed payload carrying `"message"` and
an integer `"code"` that is not a member of the `CredxErrorCode` enumeration
makes the enum conversion raise `ValueError`, which propagates unhandled
instead of degrading to the `WRAPPER` "Unknown error". -/
theorem get_current_error_invalid_code_raises (env : NativeEnv)
    (fields : List (String × PyJson)) (mj : PyJson) (n : Int) (expect : Bool)
    (h0 : env.errStatus = 0)
    (hl : json_loads env.errValue = .ok (PyJson.obj fields))
    (hmsg : dictLookup fields "message" = some mj)
    (hcode : dictLookup fields "code" = some (PyJson.int n))
    (hmem : CredxErrorCode.ofInt n = none) :
    get_current_error env expect = .error PyExc.valueError := by
  have hne : fields.isEmpty = false := by
    cases fields with
    | nil => simp [dictLookup] at hcode
    | cons a t => rfl
  have hcf : checkFields (PyJson.obj fields) = .ok true := by
    simp [checkFields, PyJson.truthy, hne, pyContains, hmsg, hcode]
  have hbe : buildError (PyJson.obj fields) = .error PyExc.valueError := by
    simp [buildError, PyJson.getitem, hcode, CredxErrorCode.ofPy, hmem]
  simp [get_current_error, h0, hl, handleErrorJson, hcf, hbe]

/-- Witness for C9 at the concrete payload
`{"message": "m", "code": 123456}` (123456 is not an enumeration member). -/
theorem get_current_error_invalid_code_raises_witness :
    CredxErrorCode.ofInt 123456 = none ∧
    get_current_error ⟨0, some "\x7b\"message\": \"m\", \"code\": 123456\x7d"⟩ false =
      .error PyExc.valueError :=
  ⟨by decide, get_current_error_invalid_code_raises
    ⟨0, some "\x7b\"message\": \"m\", \"code\": 123456\x7d"⟩
    [("message", PyJson.str "m"), ("code", PyJson.int 123456)]
    (PyJson.str "m") 123456 false rfl rfl rfl rfl (by decide)⟩

/-- C10 (confirmed, implicit): in `create_schema` the expression
`c_int64(seq_no or -1)` passes -1 for both `seq_no=None` and `seq_no=0`
(Python `or` treats the integer 0 as falsy), while any non-zero in-range
sequence number is passed unchanged. -/
theorem create_schema_seq_no_marshaling (origin_did name version : String)
    (attr_names : List String) :
    (create_schema origin_did name version attr_names none).seq_no = -1 ∧
    (create_schema origin_did name version attr_names (some 0)).seq_no = -1 ∧
    ∀ n : Int, n ≠ 0 → -(2 ^ 63) ≤ n → n < 2 ^ 63 →
      (create_schema origin_did name version attr_names (some n)).seq_no = n := by
  refine ⟨by simp [create_schema, pyOrNeg1, c_int64], by simp [create_schema, pyOrNeg1, c_int64], ?_⟩
  intro n h1 h2 h3
  simp only [create_schema, pyOrNeg1, if_neg h1, c_int64]
  omega

/-- Witness for C10: with concrete arguments, `None` and `0` both marshal to
-1 while 5 marshals to 5. -/
theorem create_schema_seq_no_marshaling_witness :
    (create_schema "did:example:123" "degree" "1.0" ["name", "age"] none).seq_no = -1 ∧
    (create_schema "did:example:123" "degree" "1.0" ["name", "age"] (some 0)).seq_no = -1 ∧
    (create_schema "did:example:123" "degree" "1.0" ["name", "age"] (some 5)).seq_no = 5 :=
  ⟨(create_schema_seq_no_marshaling "did:example:123" "degree" "1.0" ["name", "age"]).1,
   (create_schema_seq_no_marshaling "did:example:123" "degree" "1.0" ["name", "age"]).2.1,
   (create_schema_seq_no_marshaling "did:example:123" "degree" "1.0" ["name", "age"]).2.2
     5 (by decide) (by decide) (by decide)⟩
